import Mathlib

/-!
Shallow embedding of the test-run orchestration core of the robo-backend
repository (files `app/routers/robot.py`, `app/services/robot_runner.py`,
`app/models.py`) and proofs about it.

Modelling conventions:
* Python dicts keyed by run id become association lists `List (Nat × α)`
  with first-match lookup and overwrite-on-assignment semantics.
* Filesystem and clock effects are abstracted into an `Env` record of
  functions (`fsExists`, path normalization, `now`); the orchestration code
  only ever threads them through, never inspects their structure.
* The external `robot` subprocess is abstracted as the `Except String Int`
  result of the executor invocation: `Except.ok rc` is a process that ran
  and exited with code `rc`, `Except.error msg` is an exception escaping
  the invocation (launch failure, I/O error) carrying `str(e)`.
* FastAPI `BackgroundTasks.add_task` queues work that only runs after the
  request handler has returned; the queue is the `pending` field of
  `AppState`, and `execute_robot_suite` is applied to a state separately,
  later, exactly as the scheduler would.
* Python status strings "running" / "executing" / "completed" / "error"
  become the enumeration `TrackStatus`.
-/

/-- Live tracker status strings used by `app/routers/robot.py`. -/
inductive TrackStatus where
  | running
  | executing
  | completed
  | error
deriving DecidableEq, Repr

/-- One value of the process-wide `running_tasks` dict.  The Python entries
are heterogeneous dicts; the union of the keys ever written becomes a record
of optional fields, absent keys being `none`.  `suite_path` is present in
every entry the code ever writes. -/
structure TrackerEntry where
  status : TrackStatus
  start_time : Option String := none
  suite_path : String
  message : Option String := none
  return_code : Option Int := none
  ok : Option Bool := none
  output_dir : Option String := none
  completion_time : Option String := none
  error : Option String := none
  preset_name : Option String := none
deriving DecidableEq, Repr

/-- Durable run record (`RobotRun` in `app/models.py`). -/
structure RobotRun where
  id : Nat
  suite_path : String
  output_dir : String
  return_code : Option Int := none
  ok : Bool := false
  created_at : String
deriving DecidableEq, Repr

/-- Durable preset record (`RobotPreset` in `app/models.py`).  The
`variables_json` / `extra_args_json` columns hold JSON-encoded values that
`run_preset` decodes with `json.loads` before use; the embedding stores the
decoded values directly (the encode/decode round trip is the identity). -/
structure RobotPreset where
  id : Nat
  name : String
  suite_path : String
  «variables» : Option (List (String × String)) := none
  extra_args : Option (List String) := none
  created_at : String
deriving DecidableEq, Repr

/-- Arguments of one queued `background_tasks.add_task(execute_robot_suite, ...)`. -/
structure BgTask where
  run_id : Nat
  suite_path : String
  «variables» : Option (List (String × String)) := none
  extra_args : Option (List String) := none
deriving DecidableEq, Repr

/-- A FastAPI `HTTPException`. -/
structure HTTPError where
  status_code : Nat
  detail : String
deriving DecidableEq, Repr

/-- The JSON body returned by `trigger_robot_run` / `run_preset`. -/
structure RunResponse where
  run_id : Nat
  status : TrackStatus
  message : String
  suite_path : String
deriving DecidableEq, Repr

/-- The dict `get_run_status` synthesizes from a durable record. -/
structure CompletedView where
  status : TrackStatus
  return_code : Option Int
  ok : Bool
  suite_path : String
  output_dir : String
  created_at : String
deriving DecidableEq, Repr

/-- The two shapes `get_run_status` can return: the live tracker dict
verbatim, or the view synthesized from a `RobotRun`. -/
inductive StatusResponse where
  | tracker (e : TrackerEntry)
  | record (v : CompletedView)
deriving DecidableEq, Repr

/-- Ambient effects: clock and path/filesystem functions from `os` /
`datetime`.  `normalizePath` models the whole normalization expression
`os.path.abspath(os.path.expanduser(s.strip()))` of `trigger_robot_run`;
`abspath` is the bare `os.path.abspath` used for the output directory;
`fsExists` is `os.path.exists`.  All are stdlib/OS behavior and opaque to
the orchestration code. -/
structure Env where
  now : String
  normalizePath : String → String
  abspath : String → String
  fsExists : String → Bool

/-- The whole mutable world of the router module: the database tables
(`runs` with its autoincrement counter, `presets`), the process-wide
`running_tasks` dict, and the queue of background tasks scheduled but not
yet executed. -/
structure AppState where
  runs : List RobotRun := []
  nextId : Nat := 1
  presets : List RobotPreset := []
  running_tasks : List (Nat × TrackerEntry) := []
  pending : List BgTask := []
deriving DecidableEq, Repr

/-- Dict read `running_tasks.get(k)` / membership `k in running_tasks`. -/
def trackerGet (m : List (Nat × TrackerEntry)) (k : Nat) : Option TrackerEntry :=
  (m.find? (fun p => p.1 == k)).map Prod.snd

/-- Dict assignment `running_tasks[k] = v` (insert or overwrite). -/
def trackerSet (m : List (Nat × TrackerEntry)) (k : Nat) (v : TrackerEntry) :
    List (Nat × TrackerEntry) :=
  (k, v) :: m.filter (fun p => ¬ p.1 == k)

/-- In-place field mutation `running_tasks[k][...] = ...` of an existing
entry (the `running` → `executing` transition is the only one that mutates
instead of overwriting).  A no-op when `k` is absent; the orchestrator
always registers the entry before scheduling the task, so the key is
present whenever the code runs this. -/
def trackerUpdate (m : List (Nat × TrackerEntry)) (k : Nat)
    (f : TrackerEntry → TrackerEntry) : List (Nat × TrackerEntry) :=
  m.map (fun p => if p.1 == k then (p.1, f p.2) else p)

/-- Model of `session.get(RobotRun, k)`. -/
def storeGet (runs : List RobotRun) (k : Nat) : Option RobotRun :=
  runs.find? (fun r => r.id == k)

/-- Model of `session.get(RobotPreset, k)`. -/
def presetGet (presets : List RobotPreset) (k : Nat) : Option RobotPreset :=
  presets.find? (fun p => p.id == k)

/-! ## Suite Executor (`app/services/robot_runner.py`) -/

/-- The `cmd` list built by `run_robot_suite` (lines 13-25): base command,
`-d` output flag, fixed `--listener allure_robotframework` flag, then
`if variables: for k, v in variables.items(): cmd.extend(["-v", f"{k}:{v}"])`,
then `if extra_args: cmd.extend(extra_args)`, then the suite path appended
last.  A Python `None` or empty mapping/list is falsy and skips its block. -/
def run_robot_suite_cmd (suite_path output_dir : String)
    («variables» : Option (List (String × String)))
    (extra_args : Option (List String)) : List String :=
  let cmd : List String := ["robot", "-d", output_dir, "--listener", "allure_robotframework"]
  let cmd := match «variables» with
    | some vs => if vs.isEmpty then cmd else
        vs.foldl (fun c kv => c ++ ["-v", kv.1 ++ ":" ++ kv.2]) cmd
    | none => cmd
  let cmd := match extra_args with
    | some es => if es.isEmpty then cmd else cmd ++ es
    | none => cmd
  cmd ++ [suite_path]

/-- What `subprocess.run` captures when the process does launch. -/
structure SubprocessResult where
  returncode : Int
  stdout : String
  stderr : String
deriving DecidableEq, Repr

/-- External effects `run_robot_suite` depends on, abstracted as data:
the outcome of the `subprocess.run(cmd, ...)` call (`Except.error msg`
when launching raises, e.g. the `robot` binary is absent), whether
`os.path.isdir(output_dir/allure-results)` holds after the run, and the
outcome of the best-effort `allure generate` subprocess call. -/
structure RunnerWorld where
  runProcess : List String → Except String SubprocessResult
  resultsDirExists : Bool
  reportGeneration : Except String Unit

/-- Lines 44-50 of `robot_runner.py`: `try: if os.path.isdir(results_dir):
subprocess.run(["allure", "generate", ...], check=False) except Exception:
pass`.  Any failure of the attempt is swallowed by the bare handler. -/
def tryReportGeneration (resultsDirExists : Bool)
    (generation : Except String Unit) : Unit :=
  match (if resultsDirExists then generation else Except.ok ()) with
  | Except.ok _ => ()
  | Except.error _ => ()

/-- Model of `run_robot_suite(suite_path, output_dir, variables, extra_args)`:
builds the command, runs the external process (a raised launch exception
propagates to the caller), writes `stdout.txt` / `stderr.txt` (filesystem
writes carry no information the claims need and are elided), attempts
report generation with failures swallowed, and returns
`completed.returncode`. -/
def run_robot_suite (w : RunnerWorld) (suite_path output_dir : String)
    («variables» : Option (List (String × String)))
    (extra_args : Option (List String)) : Except String Int := do
  let cmd := run_robot_suite_cmd suite_path output_dir «variables» extra_args
  let completed ← w.runProcess cmd
  let _unit := tryReportGeneration w.resultsDirExists w.reportGeneration
  pure completed.returncode

/-! ## Run Orchestrator and Status Resolver (`app/routers/robot.py`) -/

/-- The placeholder record inserted before execution (lines 38 and 216):
`RobotRun(suite_path=..., output_dir="", return_code=None, ok=False)`;
`created_at` defaults to the current time, `id` to the next autoincrement
value. -/
def placeholderRun (id : Nat) (suite_path : String) (now : String) : RobotRun :=
  { id := id, suite_path := suite_path, output_dir := "",
    return_code := none, ok := false, created_at := now }

/-- Handler of POST /robot/run (`trigger_robot_run`, lines 28-64): normalize and
validate the suite path, insert the placeholder record, register the
`running` tracker entry, queue the background task, return the response.
`Except.error` is the `HTTPException` path, which leaves the world
untouched. -/
def trigger_robot_run (env : Env) (st : AppState)
    (suite_path : String) («variables» : Option (List (String × String)))
    (extra_args : Option (List String)) :
    Except HTTPError (AppState × RunResponse) :=
  let normalized_path := env.normalizePath suite_path
  if env.fsExists normalized_path = false then
    Except.error { status_code := 400,
                   detail := "suite_path does not exist on server: " ++ normalized_path }
  else
    let runId := st.nextId
    let run := placeholderRun runId normalized_path env.now
    let entry : TrackerEntry :=
      { status := TrackStatus.running, start_time := some env.now,
        suite_path := normalized_path }
    let task : BgTask :=
      { run_id := runId, suite_path := normalized_path,
        «variables» := «variables», extra_args := extra_args }
    Except.ok
      ({ st with runs := st.runs ++ [run], nextId := runId + 1,
                 running_tasks := trackerSet st.running_tasks runId entry,
                 pending := st.pending ++ [task] },
       { run_id := runId, status := TrackStatus.running,
         message := "Test execution started", suite_path := normalized_path })

/-- The output directory derived for a run (line 70):
`os.path.abspath(os.path.join("./data/robot_runs", str(run_id)))`. -/
def runOutputDir (env : Env) (run_id : Nat) : String :=
  env.abspath ("./data/robot_runs/" ++ toString run_id)

/-- The wholesale `completed` tracker entry written on executor return
(lines 93-100). -/
def completedEntry (rc : Int) (suite_path out_dir now : String) : TrackerEntry :=
  { status := TrackStatus.completed, return_code := some rc,
    ok := some (rc == 0), suite_path := suite_path,
    output_dir := some out_dir, completion_time := some now }

/-- The wholesale `error` tracker entry written by the handler
(lines 104-108): `{"status": "error", "error": str(e), "suite_path": ...}`. -/
def errorEntry (msg suite_path : String) : TrackerEntry :=
  { status := TrackStatus.error, error := some msg, suite_path := suite_path }

/-- Model of `execute_robot_suite(run_id, suite_path, variables, extra_args)`
(lines 67-108), the background task body.  `execResult` is the outcome of
the `run_robot_suite(...)` call: `Except.ok rc` when the executor returned
exit code `rc`, `Except.error msg` when an exception escaped it.  On
success the durable record is updated (`output_dir`, `return_code`,
`ok = rc == 0`) and the tracker entry replaced by a `completed` one; on an
exception the handler replaces the tracker entry with an `error` one and
the database write is skipped entirely.  The orchestrator inserts the
record and registers the tracker entry before scheduling this task, and
run records are never deleted, so `session.get` finds the record and the
in-place `executing` mutation finds its key. -/
def execute_robot_suite (env : Env) (execResult : Except String Int)
    (run_id : Nat) (suite_path : String) (st : AppState) : AppState :=
  let out_dir := runOutputDir env run_id
  let st1 := { st with
    running_tasks := trackerUpdate st.running_tasks run_id (fun e =>
      { e with status := TrackStatus.executing,
               message := some "Running test cases..." }) }
  match execResult with
  | Except.ok rc =>
      let st2 := { st1 with
        runs := st1.runs.map (fun (r : RobotRun) =>
          if r.id == run_id then
            { r with output_dir := out_dir, return_code := some rc, ok := rc == 0 }
          else r) }
      { st2 with
        running_tasks := trackerSet st2.running_tasks run_id
          (completedEntry rc suite_path out_dir env.now) }
  | Except.error msg =>
      { st1 with
        running_tasks := trackerSet st1.running_tasks run_id (errorEntry msg suite_path) }

/-- The `completed` view `get_run_status` synthesizes from a durable
record (lines 122-129). -/
def synthView (r : RobotRun) : CompletedView :=
  { status := TrackStatus.completed, return_code := r.return_code,
    ok := r.ok, suite_path := r.suite_path, output_dir := r.output_dir,
    created_at := r.created_at }

/-- Handler of GET /robot/run-status/<run_id> (`get_run_status`, lines 112-131):
tracker entry verbatim if present, else synthesized view from the durable
record, else 404. -/
def get_run_status (st : AppState) (run_id : Nat) :
    Except HTTPError StatusResponse :=
  match trackerGet st.running_tasks run_id with
  | some e => Except.ok (StatusResponse.tracker e)
  | none =>
    match storeGet st.runs run_id with
    | some run => Except.ok (StatusResponse.record (synthView run))
    | none => Except.error { status_code := 404, detail := "Run not found" }

/-- Handler of POST /robot/run-preset/<preset_id> (`run_preset`, lines 204-243):
look up the preset (404 if absent), decode its stored variables and
extra_args, insert a placeholder record for the preset's stored
`suite_path`, register a `running` tracker entry that additionally carries
`preset_name`, queue the background task, and respond.  Unlike
`trigger_robot_run` there is no existence check of the suite path. -/
def run_preset (env : Env) (st : AppState) (preset_id : Nat) :
    Except HTTPError (AppState × RunResponse) :=
  match presetGet st.presets preset_id with
  | none => Except.error { status_code := 404, detail := "Preset not found" }
  | some preset =>
    let runId := st.nextId
    let run := placeholderRun runId preset.suite_path env.now
    let entry : TrackerEntry :=
      { status := TrackStatus.running, start_time := some env.now,
        suite_path := preset.suite_path, preset_name := some preset.name }
    let task : BgTask :=
      { run_id := runId, suite_path := preset.suite_path,
        «variables» := preset.«variables», extra_args := preset.extra_args }
    Except.ok
      ({ st with runs := st.runs ++ [run], nextId := runId + 1,
                 running_tasks := trackerSet st.running_tasks runId entry,
                 pending := st.pending ++ [task] },
       { run_id := runId, status := TrackStatus.running,
         message := "Preset \x27" ++ preset.name ++ "\x27 execution started",
         suite_path := preset.suite_path })

/-- The spec's RunRecord invariant, as a predicate on the two fields:
`ok == true` iff `return_code == 0`. -/
def okInv (ok : Bool) (return_code : Option Int) : Prop :=
  ok = true ↔ return_code = some 0

/-! ## Helper lemmas and concrete fixtures -/

/-- Reading the key just assigned in the tracker yields the new value. -/
theorem trackerGet_set_self (m : List (Nat × TrackerEntry)) (k : Nat)
    (v : TrackerEntry) : trackerGet (trackerSet m k v) k = some v := by
  simp [trackerGet, trackerSet, List.find?]

/-- The variable-injection flag pairs of the command, one `-v k:v` pair per
entry, in iteration order: the flat-list description the loop of
`run_robot_suite` produces. -/
def varFlags : List (String × String) → List String
  | [] => []
  | kv :: t => "-v" :: (kv.1 ++ ":" ++ kv.2) :: varFlags t

/-- Unrolling the `cmd.extend(["-v", f"{k}:{v}"])` loop: the fold appends
exactly `varFlags` to whatever list it starts from. -/
theorem foldl_extend_varFlags (l : List (String × String)) (init : List String) :
    l.foldl (fun c kv => c ++ ["-v", kv.1 ++ ":" ++ kv.2]) init
      = init ++ varFlags l := by
  induction l generalizing init with
  | nil => simp [varFlags]
  | cons kv t ih => simp [varFlags, List.foldl_cons, ih]

/-- Projection of the success branch of `execute_robot_suite`: the durable
table after completion is the original one with the record for `run_id`
given its final `output_dir`, `return_code` and `ok` fields. -/
theorem execute_ok_runs (env : Env) (rc : Int) (run_id : Nat) (suite : String)
    (st : AppState) :
    (execute_robot_suite env (Except.ok rc) run_id suite st).runs
      = st.runs.map (fun r =>
          if r.id == run_id then
            { r with output_dir := runOutputDir env run_id,
                     return_code := some rc, ok := rc == 0 }
          else r) := by
  simp [execute_robot_suite]

/-- Any record found in the table after the completion write for key `k`
carries `return_code = some rc` and `ok = (rc == 0)`. -/
theorem storeGet_map_update (l : List RobotRun) (k : Nat) (od : String)
    (rc : Int) (r : RobotRun)
    (h : storeGet
          (l.map (fun x =>
            if x.id == k then
              { x with output_dir := od, return_code := some rc, ok := rc == 0 }
            else x)) k = some r) :
    r.return_code = some rc ∧ r.ok = (rc == 0) := by
  unfold storeGet at h
  have hpred := List.find?_some h
  obtain ⟨x, _, hfx⟩ := List.mem_map.mp (List.mem_of_find?_eq_some h)
  by_cases hxk : (x.id == k) = true
  · rw [if_pos hxk] at hfx
    cases hfx
    exact ⟨rfl, rfl⟩
  · rw [if_neg hxk] at hfx
    cases hfx
    exact absurd hpred hxk

/-- The state and response `run_preset` produces whenever the preset is
found: identical to the ad-hoc path except that the stored suite path is
used unchecked, the tracker entry carries `preset_name`, and the response
message names the preset. -/
theorem run_preset_found (env : Env) (st : AppState) (pid : Nat)
    (preset : RobotPreset) (hp : presetGet st.presets pid = some preset) :
    run_preset env st pid = Except.ok
      ({ st with
          runs := st.runs ++ [placeholderRun st.nextId preset.suite_path env.now],
          nextId := st.nextId + 1,
          running_tasks := trackerSet st.running_tasks st.nextId
            { status := TrackStatus.running, start_time := some env.now,
              suite_path := preset.suite_path, preset_name := some preset.name },
          pending := st.pending ++
            [{ run_id := st.nextId, suite_path := preset.suite_path,
               «variables» := preset.«variables»,
               extra_args := preset.extra_args }] },
       { run_id := st.nextId, status := TrackStatus.running,
         message := "Preset \x27" ++ preset.name ++ "\x27 execution started",
         suite_path := preset.suite_path }) := by
  simp [run_preset, hp]

/-- A fresh module state: empty tables, empty tracker, no queued tasks. -/
def stEmpty : AppState := {}

/-- A concrete environment for witnesses: identity path functions, a
filesystem on which every path exists. -/
def envEx : Env :=
  { now := "t0", normalizePath := fun s => s, abspath := fun s => s,
    fsExists := fun _ => true }

/-- A concrete environment whose filesystem has no paths at all. -/
def envNoFs : Env :=
  { now := "t0", normalizePath := fun s => s, abspath := fun s => s,
    fsExists := fun _ => false }

/-- The tracker entry registered by `trigger_robot_run` in the concrete
single-submission scenario. -/
def entryEx1 : TrackerEntry :=
  { status := TrackStatus.running, start_time := some "t0", suite_path := "/suite" }

/-- State after one ad-hoc submission of `/suite` against `envEx`. -/
def stEx1 : AppState :=
  { runs := [placeholderRun 1 "/suite" "t0"], nextId := 2,
    running_tasks := [(1, entryEx1)] }

/-- The durable record of run 1 after a 0-exit completion. -/
def rEx1 : RobotRun :=
  { id := 1, suite_path := "/suite", output_dir := "./data/robot_runs/1",
    return_code := some 0, ok := true, created_at := "t0" }

/-- A stored preset whose suite path exists on no filesystem of the
witness environments. -/
def presetEx : RobotPreset :=
  { id := 7, name := "night", suite_path := "/missing/suite.robot",
    «variables» := some [("k", "v")], extra_args := some ["-i", "tag"],
    created_at := "c0" }

/-- A state holding only `presetEx`. -/
def stExPre : AppState := { presets := [presetEx] }

/-- The tracker entry `run_preset` registers for `presetEx`. -/
def presetEntryEx : TrackerEntry :=
  { status := TrackStatus.running, start_time := some "t0",
    suite_path := "/missing/suite.robot", preset_name := some "night" }

/-- The state after submitting `presetEx` from `stExPre`. -/
def stExPreAfter : AppState :=
  { runs := [placeholderRun 1 "/missing/suite.robot" "t0"], nextId := 2,
    presets := [presetEx], running_tasks := [(1, presetEntryEx)],
    pending := [{ run_id := 1, suite_path := "/missing/suite.robot",
                  «variables» := some [("k", "v")],
                  extra_args := some ["-i", "tag"] }] }

/-- The response body of that preset submission. -/
def respExPre : RunResponse :=
  { run_id := 1, status := TrackStatus.running,
    message := "Preset \x27night\x27 execution started",
    suite_path := "/missing/suite.robot" }

/-! ## Claims -/

/-- C1: for every RunRecord, at creation (placeholder with `return_code`
null and `ok` false) and after the single completion update performed by
the orchestrator, `ok = true` holds iff `return_code = 0`; and the status
view the resolver synthesizes copies both fields unchanged, so the
equivalence carries over to every synthesized view. -/
theorem c1_run_ok_iff_return_code_zero :
    (∀ (id : Nat) (path now : String),
        okInv (placeholderRun id path now).ok (placeholderRun id path now).return_code)
  ∧ (∀ (env : Env) (rc : Int) (run_id : Nat) (suite : String) (st : AppState)
        (r : RobotRun),
        storeGet (execute_robot_suite env (Except.ok rc) run_id suite st).runs run_id
          = some r →
        okInv r.ok r.return_code)
  ∧ (∀ r : RobotRun, (synthView r).ok = r.ok ∧ (synthView r).return_code = r.return_code)
  ∧ (∀ r : RobotRun, okInv r.ok r.return_code →
        okInv (synthView r).ok (synthView r).return_code) := by
  refine ⟨?_, ?_, ?_, ?_⟩
  · intro id path now
    simp [okInv, placeholderRun]
  · intro env rc run_id suite st r h
    rw [execute_ok_runs] at h
    obtain ⟨h1, h2⟩ := storeGet_map_update _ _ _ _ _ h
    simp [okInv, h1, h2]
  · intro r
    exact ⟨rfl, rfl⟩
  · intro r h
    simpa [synthView, okInv] using h

/-- Witness for C1: the completed record of a concrete 0-exit run
satisfies the invariant. -/
theorem c1_witness : okInv rEx1.ok rEx1.return_code :=
  c1_run_ok_iff_return_code_zero.2.1 envEx 0 1 "/suite" stEx1 rEx1 (by rfl)

/-- C2: when the executor invocation raises (`Except.error msg`), the
background task replaces the tracker entry for the run with an `error`
entry carrying the exception message, and the durable table is not
written at all in this path, so the record keeps its placeholder shape. -/
theorem c2_executor_exception_error_path (env : Env) (msg : String)
    (run_id : Nat) (suite : String) (st : AppState) :
    trackerGet (execute_robot_suite env (Except.error msg) run_id suite st).running_tasks
        run_id = some (errorEntry msg suite)
  ∧ (execute_robot_suite env (Except.error msg) run_id suite st).runs = st.runs
  ∧ storeGet (execute_robot_suite env (Except.error msg) run_id suite st).runs run_id
      = storeGet st.runs run_id := by
  exact ⟨trackerGet_set_self _ _ _, rfl, rfl⟩

/-- C3: a submission whose normalized suite path does not exist fails
synchronously with the 400 error; no state is produced, so no RunRecord
is inserted and no TrackerEntry is registered. -/
theorem c3_missing_path_rejected (env : Env) (st : AppState)
    (suite_path : String) («variables» : Option (List (String × String)))
    (extra_args : Option (List String))
    (h : env.fsExists (env.normalizePath suite_path) = false) :
    trigger_robot_run env st suite_path «variables» extra_args =
      Except.error { status_code := 400,
                     detail := "suite_path does not exist on server: "
                       ++ env.normalizePath suite_path } := by
  simp [trigger_robot_run, h]

/-- Witness for C3: a concrete submission against the empty filesystem. -/
theorem c3_witness :
    trigger_robot_run envNoFs stEmpty "/missing/suite.robot" none none =
      Except.error { status_code := 400,
                     detail := "suite_path does not exist on server: "
                       ++ envNoFs.normalizePath "/missing/suite.robot" } :=
  c3_missing_path_rejected envNoFs stEmpty "/missing/suite.robot" none none rfl

/-- C4: the status operation resolves in exactly this order: a tracker
entry for the id is returned verbatim; otherwise an existing RunRecord
yields the synthesized `completed` view; otherwise the operation fails
with the 404 not-found error. -/
theorem c4_status_resolution_order (st : AppState) (run_id : Nat) :
    (∀ e, trackerGet st.running_tasks run_id = some e →
        get_run_status st run_id = Except.ok (StatusResponse.tracker e))
  ∧ (trackerGet st.running_tasks run_id = none →
      ∀ r, storeGet st.runs run_id = some r →
        get_run_status st run_id = Except.ok (StatusResponse.record (synthView r)))
  ∧ (trackerGet st.running_tasks run_id = none →
      storeGet st.runs run_id = none →
        get_run_status st run_id =
          Except.error { status_code := 404, detail := "Run not found" }) := by
  refine ⟨?_, ?_, ?_⟩
  · intro e he
    simp [get_run_status, he]
  · intro hn r hr
    simp [get_run_status, hn, hr]
  · intro hn hr
    simp [get_run_status, hn, hr]

/-- Witness for C4: in the concrete post-submission state the tracker
entry is returned verbatim. -/
theorem c4_witness : get_run_status stEx1 1 = Except.ok (StatusResponse.tracker entryEx1) :=
  (c4_status_resolution_order stEx1 1).1 entryEx1 rfl

/-- C5 counterexample: the claim says a preset submission whose stored
suite path does not exist fails fast and creates no RunRecord and no
TrackerEntry.  On a filesystem where `presetEx.suite_path` does not
exist, `run_preset` nevertheless succeeds, inserts the placeholder record
and registers the running tracker entry. -/
theorem c5_counterexample :
    envNoFs.fsExists presetEx.suite_path = false
  ∧ run_preset envNoFs stExPre 7 = Except.ok (stExPreAfter, respExPre)
  ∧ storeGet stExPreAfter.runs 1 = some (placeholderRun 1 "/missing/suite.robot" "t0")
  ∧ trackerGet stExPreAfter.running_tasks 1 = some presetEntryEx :=
  ⟨rfl, rfl, rfl, rfl⟩

/-- C5 (amended): a preset submission resolves the stored variables and
extra_args and follows the ad-hoc path except that it performs no
existence check of the stored suite path: for every environment,
whatever its filesystem, a found preset yields a successful submission
that inserts the placeholder RunRecord and registers the running
TrackerEntry (a nonexistent path surfaces later as an executor failure,
not at submission). -/
theorem c5_preset_submission_unvalidated (env : Env) (st : AppState)
    (pid : Nat) (preset : RobotPreset)
    (hp : presetGet st.presets pid = some preset) :
    ∃ st2 resp, run_preset env st pid = Except.ok (st2, resp)
      ∧ st2.runs = st.runs ++ [placeholderRun st.nextId preset.suite_path env.now]
      ∧ trackerGet st2.running_tasks resp.run_id = some
          { status := TrackStatus.running, start_time := some env.now,
            suite_path := preset.suite_path, preset_name := some preset.name } := by
  refine ⟨_, _, run_preset_found env st pid preset hp, rfl, ?_⟩
  exact trackerGet_set_self _ _ _

/-- Witness for C5 (amended): the concrete preset submission on the
empty filesystem. -/
theorem c5_witness :
    ∃ st2 resp, run_preset envNoFs stExPre 7 = Except.ok (st2, resp)
      ∧ st2.runs = stExPre.runs
          ++ [placeholderRun stExPre.nextId presetEx.suite_path envNoFs.now]
      ∧ trackerGet st2.running_tasks resp.run_id = some
          { status := TrackStatus.running, start_time := some envNoFs.now,
            suite_path := presetEx.suite_path, preset_name := some presetEx.name } :=
  c5_preset_submission_unvalidated envNoFs stExPre 7 presetEx rfl

/-- C6: for every valid submission, querying the status of the returned
run id immediately after `trigger_robot_run` returns yields the `running`
tracker entry (never not-found, never `executing`); the background task
is only queued in `pending`, not yet executed. -/
theorem c6_status_running_after_submit (env : Env) (st : AppState)
    (suite_path : String) («variables» : Option (List (String × String)))
    (extra_args : Option (List String)) (st2 : AppState) (resp : RunResponse)
    (h : trigger_robot_run env st suite_path «variables» extra_args
          = Except.ok (st2, resp)) :
    resp.status = TrackStatus.running
  ∧ get_run_status st2 resp.run_id = Except.ok (StatusResponse.tracker
      { status := TrackStatus.running, start_time := some env.now,
        suite_path := env.normalizePath suite_path })
  ∧ st2.pending = st.pending ++
      [{ run_id := resp.run_id,
         suite_path := env.normalizePath suite_path,
         «variables» := «variables», extra_args := extra_args }] := by
  unfold trigger_robot_run at h
  by_cases hf : env.fsExists (env.normalizePath suite_path) = false
  · rw [if_pos hf] at h
    cases h
  · rw [if_neg hf] at h
    injection h with h
    injection h with ha hb
    subst ha
    subst hb
    refine ⟨rfl, ?_, rfl⟩
    simp [get_run_status, trackerGet_set_self]

/-- State after the concrete ad-hoc submission of `/suite` from the
empty state under `envEx`. -/
def stEx6 : AppState :=
  { runs := [placeholderRun 1 "/suite" "t0"], nextId := 2,
    running_tasks := [(1, entryEx1)],
    pending := [{ run_id := 1, suite_path := "/suite" }] }

/-- Response of that submission. -/
def respEx6 : RunResponse :=
  { run_id := 1, status := TrackStatus.running,
    message := "Test execution started", suite_path := "/suite" }

/-- Witness for C6: the concrete submission, then a status query. -/
theorem c6_witness :
    respEx6.status = TrackStatus.running
  ∧ get_run_status stEx6 respEx6.run_id = Except.ok (StatusResponse.tracker
      { status := TrackStatus.running, start_time := some envEx.now,
        suite_path := envEx.normalizePath "/suite" })
  ∧ stEx6.pending = stEmpty.pending ++
      [{ run_id := respEx6.run_id,
         suite_path := envEx.normalizePath "/suite" }] :=
  c6_status_running_after_submit envEx stEmpty "/suite" none none stEx6 respEx6 (by rfl)

/-- C7: the executor builds its invocation argument list in exactly this
order: base command, output-directory flag with its value, the fixed
reporting-listener flag, one `-v k:v` pair per variables entry in
iteration order, the extra_args sequence verbatim, and the suite path as
the final positional argument.  A `none` mapping or sequence contributes
nothing, exactly like an empty one. -/
theorem c7_command_built_in_order (suite_path output_dir : String)
    («variables» : Option (List (String × String)))
    (extra_args : Option (List String)) :
    run_robot_suite_cmd suite_path output_dir «variables» extra_args =
      ["robot", "-d", output_dir, "--listener", "allure_robotframework"]
        ++ varFlags («variables».getD []) ++ extra_args.getD []
        ++ [suite_path] := by
  rcases «variables» with _ | vs
  · rcases extra_args with _ | es
    · simp [run_robot_suite_cmd, varFlags]
    · cases es <;> simp [run_robot_suite_cmd, varFlags]
  · rcases extra_args with _ | es
    · cases vs <;> simp [run_robot_suite_cmd, varFlags, foldl_extend_varFlags]
    · cases vs <;> cases es <;>
        simp [run_robot_suite_cmd, varFlags, foldl_extend_varFlags]

/-- C8: whenever the external process launches and exits with code
`res.returncode`, the executor returns that exit code verbatim,
whatever the report-generation step does — the results-directory test
and the generation outcome (including failure) are swallowed and can
neither change the returned code nor raise out of the executor. -/
theorem c8_exit_code_verbatim (w : RunnerWorld) (suite_path output_dir : String)
    («variables» : Option (List (String × String)))
    (extra_args : Option (List String)) (res : SubprocessResult)
    (hrun : w.runProcess (run_robot_suite_cmd suite_path output_dir «variables» extra_args)
        = Except.ok res) :
    run_robot_suite w suite_path output_dir «variables» extra_args
      = Except.ok res.returncode := by
  simp [run_robot_suite, hrun]

/-- A concrete runner world whose report-generation step fails: the
`allure` CLI is absent although results were produced. -/
def worldEx : RunnerWorld :=
  { runProcess := fun _ => Except.ok { returncode := 5, stdout := "out", stderr := "" },
    resultsDirExists := true,
    reportGeneration := Except.error "allure: command not found" }

/-- Witness for C8: the concrete run returns exit code 5 even though
report generation failed. -/
theorem c8_witness :
    run_robot_suite worldEx "/suite" "/out" none none = Except.ok (5 : Int) :=
  c8_exit_code_verbatim worldEx "/suite" "/out" none none
    { returncode := 5, stdout := "out", stderr := "" } rfl

/-- C9 counterexample: the claim says the initial tracker entry of a
preset-submitted run surfaces the preset name in its `message` field.
In the concrete preset submission the registered entry has
`message = none`; the name is carried by the separate `preset_name`
field (and by the HTTP response's `message`). -/
theorem c9_counterexample :
    run_preset envEx stExPre 7 = Except.ok (stExPreAfter, respExPre)
  ∧ trackerGet stExPreAfter.running_tasks 1 = some presetEntryEx
  ∧ presetEntryEx.message = none
  ∧ presetEntryEx.preset_name = some "night" :=
  ⟨rfl, rfl, rfl, rfl⟩

/-- C9 (amended): for every run submitted from a preset, the initial
tracker entry surfaces the preset's name in its `preset_name` field,
while its `message` field is absent; the submission response's `message`
is the one that names the preset. -/
theorem c9_preset_name_surfaced (env : Env) (st : AppState)
    (pid : Nat) (preset : RobotPreset)
    (hp : presetGet st.presets pid = some preset) :
    ∃ st2 resp e, run_preset env st pid = Except.ok (st2, resp)
      ∧ trackerGet st2.running_tasks resp.run_id = some e
      ∧ e.preset_name = some preset.name
      ∧ e.message = none
      ∧ resp.message = "Preset \x27" ++ preset.name ++ "\x27 execution started" := by
  refine ⟨_, _, _, run_preset_found env st pid preset hp, trackerGet_set_self _ _ _,
    rfl, rfl, rfl⟩

/-- Witness for C9 (amended): the concrete preset submission. -/
theorem c9_witness :
    ∃ st2 resp e, run_preset envEx stExPre 7 = Except.ok (st2, resp)
      ∧ trackerGet st2.running_tasks resp.run_id = some e
      ∧ e.preset_name = some presetEx.name
      ∧ e.message = none
      ∧ resp.message = "Preset \x27" ++ presetEx.name ++ "\x27 execution started" :=
  c9_preset_name_surfaced envEx stExPre 7 presetEx rfl

/-- C10: for every run id with no tracker entry but an existing
RunRecord, the status view is `completed` with the record's fields copied
regardless of the record's contents — in particular a placeholder record
(never-finished run) is reported as `completed` with `return_code = none`
and `ok = false`, not as an error or in-progress state. -/
theorem c10_record_fallback_always_completed (st : AppState) (run_id : Nat)
    (r : RobotRun) (hn : trackerGet st.running_tasks run_id = none)
    (hr : storeGet st.runs run_id = some r) :
    get_run_status st run_id = Except.ok (StatusResponse.record
      { status := TrackStatus.completed, return_code := r.return_code,
        ok := r.ok, suite_path := r.suite_path, output_dir := r.output_dir,
        created_at := r.created_at }) := by
  simp [get_run_status, hn, hr, synthView]

/-- A state holding only a stale placeholder record: a prior process
lifetime inserted it and crashed (or hit a launch failure) before
completion; the tracker is empty after restart. -/
def stEx10 : AppState :=
  { runs := [placeholderRun 3 "/old/suite.robot" "t1"], nextId := 4 }

/-- Witness for C10: the stale placeholder is reported as a `completed`
view with null return code and `ok = false`. -/
theorem c10_witness :
    get_run_status stEx10 3 = Except.ok (StatusResponse.record
      { status := TrackStatus.completed, return_code := none, ok := false,
        suite_path := "/old/suite.robot", output_dir := "", created_at := "t1" }) :=
  c10_record_fallback_always_completed stEx10 3
    (placeholderRun 3 "/old/suite.robot" "t1") rfl rfl
